import Mathlib

/-!
Verification of the task-completion orchestration and result-transformation
pipeline of `src/api/bug_detection_api.py`.

The data model (Finding, Detection Result Aggregate, Task) and the pipeline
functions (`categorize_issues_by_priority`, `generate_fix_recommendations`,
`analyze_project_structure`, `generate_ai_report`, the completion-wait loops of
`generate_report_task` / `store_structured_data`, and the structured-payload
build in `store_structured_data`) are shallowly embedded below.  Python dicts
with possibly-missing keys are embedded as structures with `Option` fields;
`dict.get(k, d)` becomes `Option.getD`; `dict.get(k)` (no default) becomes a
comparison against `some v`.  Wall-clock reads (`datetime.now()`) and sleep
based polling are made explicit: the timestamp is an explicit argument, and the
status provider is a function from elapsed time (in seconds) to the polled
task-status record.
-/

/-- A single normalized issue record (a Python dict in the source).  Every
field may be absent; the source substitutes defaults at each use site. -/
structure Finding where
  severity : Option String
  type_ : Option String
  file : Option String
  line : Option Nat
  message : Option String
deriving Repr, DecidableEq

/-- The optional `summary` sub-dict of a detection result
(`detection_results.get("summary", {})`). -/
structure SummaryCounts where
  error_count : Option Nat
  warning_count : Option Nat
  info_count : Option Nat
deriving Repr, DecidableEq

/-- The Detection Result Aggregate: the `detection_results` dict of one
completed analysis run. -/
structure DetectionResults where
  total_issues : Option Nat
  issues : List Finding
  summary : Option SummaryCounts
  languages_detected : Option (List String)
  total_files : Option Nat
  detection_tools : Option (List String)
  analysis_time : Option Nat
  project_path : Option String
deriving Repr, DecidableEq

/-- The `result` sub-dict of a task-status record. -/
structure TaskResult where
  detection_results : Option DetectionResults
  file_path : Option String
deriving Repr, DecidableEq

/-- One task-status record as returned by
`bug_detection_agent.get_task_status(task_id)`; `none` at the provider level
models a missing record. -/
structure TaskStatus where
  status : String
  result : Option TaskResult
deriving Repr, DecidableEq

/-- Python `needle in hay` on lists of characters: `needle` occurs as a
contiguous substring of `hay`. -/
def containsSub (needle : List Char) : List Char → Bool
  | [] => needle.isEmpty
  | c :: rest => needle.isPrefixOf (c :: rest) || containsSub needle rest

/-- Python `str.lower()` (ASCII-adequate for the keyword tables used here). -/
def strLower (s : String) : String := String.mk (s.data.map Char.toLower)

/-- Python `needle in hay` on strings. -/
def strContains (hay needle : String) : Bool := containsSub needle.data hay.data

/-- The security keyword table of `categorize_issues_by_priority`
(line 646 of `src/api/bug_detection_api.py`). -/
def security_keywords : List String :=
  ["security", "vulnerability", "injection", "xss", "csrf", "secret", "password"]

/-- Embedding of `issue.get("severity", "info")`, the severity accessor used
by the Priority Classifier. -/
def sevOf (f : Finding) : String := f.severity.getD "info"

/-- The `critical` guard of `categorize_issues_by_priority`:
`severity == "error" and any(keyword in issue_type.lower() for keyword in ...)`
with `issue_type = issue.get("type", "")`. -/
def isCriticalIssue (f : Finding) : Bool :=
  sevOf f == "error" &&
    security_keywords.any (fun k => strContains (strLower (f.type_.getD "")) k)

/-- The `elif severity == "error"` branch guard (rule 1 did not match). -/
def isHighIssue (f : Finding) : Bool :=
  !isCriticalIssue f && (sevOf f == "error")

/-- The `elif severity == "warning"` branch guard. -/
def isMediumIssue (f : Finding) : Bool :=
  !isCriticalIssue f && !(sevOf f == "error") && (sevOf f == "warning")

/-- The final `else` branch guard. -/
def isLowIssue (f : Finding) : Bool :=
  !isCriticalIssue f && !(sevOf f == "error") && !(sevOf f == "warning")

/-- The four priority tiers returned by `categorize_issues_by_priority`. -/
structure PriorityCategories where
  critical : List Finding
  high : List Finding
  medium : List Finding
  low : List Finding
deriving Repr, DecidableEq

/-- One iteration of the classification loop of
`categorize_issues_by_priority`: append the issue to the first tier whose
guard matches. -/
def classifyStep (acc : PriorityCategories) (f : Finding) : PriorityCategories :=
  if isCriticalIssue f then { acc with critical := acc.critical ++ [f] }
  else if sevOf f == "error" then { acc with high := acc.high ++ [f] }
  else if sevOf f == "warning" then { acc with medium := acc.medium ++ [f] }
  else { acc with low := acc.low ++ [f] }

/-- Embedding of `categorize_issues_by_priority` (lines 631-655): fold the classification
loop over the issue list starting from four empty tiers. -/
def categorize_issues_by_priority (issues : List Finding) : PriorityCategories :=
  issues.foldl classifyStep ⟨[], [], [], []⟩

/-- The three recommendation buckets of `generate_fix_recommendations`. -/
structure FixRecommendations where
  immediate_actions : List String
  short_term_improvements : List String
  long_term_optimizations : List String
deriving Repr, DecidableEq

/-- Embedding of `generate_fix_recommendations` (lines 657-685).  Severity is read with
`issue.get("severity")` (no default) and compared to string literals; the
security filter matches `"security" in issue.get("type", "").lower()`. -/
def generate_fix_recommendations (issues : List Finding) : FixRecommendations :=
  let error_count := issues.countP (fun i => i.severity == some "error")
  let warning_count := issues.countP (fun i => i.severity == some "warning")
  let security_issues := issues.filter
    (fun i => strContains (strLower (i.type_.getD "")) "security")
  { immediate_actions :=
      (if 0 < error_count then
        ["修复 " ++ toString error_count ++ " 个错误级别的问题"] else []) ++
      (if security_issues.isEmpty then [] else
        ["优先处理 " ++ toString security_issues.length ++ " 个安全问题"]),
    short_term_improvements :=
      if 10 < warning_count then ["进行代码审查，处理大量警告"] else [],
    long_term_optimizations :=
      ["建立持续集成流程，定期进行代码质量检查", "制定代码规范和最佳实践指南"] }

/-- Embedding of `issue.get("file", "unknown")`, the file accessor of
`analyze_project_structure`. -/
def fileOf (f : Finding) : String := f.file.getD "unknown"

/-- The distinct keys of the `file_issue_count` dict built by
`analyze_project_structure` (Python dicts keep one entry per distinct key). -/
def fileNames (issues : List Finding) : List String :=
  (issues.map fileOf).dedup

/-- The per-file issue count (`file_issue_count[file_name]`). -/
def fileIssueCount (issues : List Finding) (name : String) : Nat :=
  issues.countP (fun i => fileOf i == name)

/-- The `complexity_indicators` sub-dict of `analyze_project_structure`.
`average_issues_per_file` is a Python float division, embedded in `ℚ`. -/
structure ComplexityIndicators where
  high_issue_files : Nat
  average_issues_per_file : ℚ
deriving Repr, DecidableEq

/-- The `structure_info` dict returned by `analyze_project_structure`. -/
structure StructureInfo where
  analysis_type : String
  file_count : Nat
  languages : List String
  complexity_indicators : ComplexityIndicators
deriving Repr, DecidableEq

/-- Embedding of `analyze_project_structure` (lines 687-716): passthrough metadata plus the
complexity indicators; indicators stay 0 when the issue list is empty. -/
def analyze_project_structure (dr : DetectionResults) (analysis_type : String) :
    StructureInfo :=
  let base : StructureInfo :=
    { analysis_type := analysis_type,
      file_count := dr.total_files.getD 1,
      languages := dr.languages_detected.getD [],
      complexity_indicators := ⟨0, 0⟩ }
  if dr.issues.isEmpty then base
  else
    let files := fileNames dr.issues
    let high := files.countP (fun n => 5 < fileIssueCount dr.issues n)
    let total_files := if files.length = 0 then 1 else files.length
    { base with complexity_indicators :=
        ⟨high, (dr.issues.length : ℚ) / (total_files : ℚ)⟩ }

/-- Embedding of the comprehension
`[issue for issue in issues if issue.get("severity") == "error"]` (line 563). -/
def error_issues (issues : List Finding) : List Finding :=
  issues.filter (fun i => i.severity == some "error")

/-- Embedding of the comprehension
`[issue for issue in issues if issue.get("severity") == "warning"]` (line 564). -/
def warning_issues (issues : List Finding) : List Finding :=
  issues.filter (fun i => i.severity == some "warning")

/-- Embedding of the comprehension
`[issue for issue in issues if issue.get("severity") == "info"]` (line 565). -/
def info_issues (issues : List Finding) : List Finding :=
  issues.filter (fun i => i.severity == some "info")

/-- The fixed document returned by `generate_ai_report` when
`total_issues == 0` (line 560). -/
def zero_issue_doc : String :=
  "# AI分析报告\n\n## 检测结果\n\n✅ 未发现明显的代码缺陷。\n\n## 建议\n\n- 代码质量良好，建议继续保持\n- 可以考虑添加更多的单元测试\n- 定期进行代码审查\n"

/-- One rendered issue entry of the critical / warning sections
(lines 578-581 and 587-590). -/
def issueEntry (advisory : String) (i : Finding) : String :=
  "### " ++ i.type_.getD "unknown" ++ "\n" ++
  "- **位置**: 第" ++ toString (i.line.getD 0) ++ "行\n" ++
  "- **描述**: " ++ i.message.getD "" ++ "\n" ++
  "- **建议**: " ++ advisory ++ "\n\n"

/-- The report header (lines 567-572). -/
def reportHeader (dr : DetectionResults) (file_path : String) : String :=
  "# AI分析报告\n\n" ++
  "## 文件信息\n\n- **文件路径**: " ++ file_path ++ "\n" ++
  "- **总问题数**: " ++ toString (dr.total_issues.getD 0) ++ "\n" ++
  "- **错误**: " ++ toString (error_issues dr.issues).length ++ " 个\n" ++
  "- **警告**: " ++ toString (warning_issues dr.issues).length ++ " 个\n" ++
  "- **信息**: " ++ toString (info_issues dr.issues).length ++ " 个\n\n"

/-- The critical-issues section (lines 575-581): at most the first five
error-severity findings, each with the fixed advisory. -/
def criticalSection (issues : List Finding) : String :=
  if (error_issues issues).isEmpty then "" else
    "## 🚨 严重问题\n\n" ++
      String.join (((error_issues issues).take 5).map (issueEntry "需要立即修复此问题"))

/-- The warnings section (lines 584-590). -/
def warningSection (issues : List Finding) : String :=
  if (warning_issues issues).isEmpty then "" else
    "## ⚠️ 警告问题\n\n" ++
      String.join (((warning_issues issues).take 5).map (issueEntry "建议修复以提高代码质量"))

/-- The quality-suggestion section (lines 593-611): one fixed advisory per
recognized finding type present in the type set. -/
def qualitySection (issues : List Finding) : String :=
  let issue_types := (issues.map (fun i => i.type_.getD "unknown")).dedup
  "## 💡 代码质量建议\n\n" ++
  (if issue_types.contains "unhandled_exception" then
    "- **异常处理**: 建议添加try-catch块来处理可能的异常\n" else "") ++
  (if issue_types.contains "potential_division_by_zero" then
    "- **除零检查**: 建议在除法操作前检查除数是否为零\n" else "") ++
  (if issue_types.contains "unused_import" then
    "- **代码清理**: 建议移除未使用的导入语句\n" else "") ++
  (if issue_types.contains "missing_docstring" then
    "- **文档化**: 建议为函数和类添加文档字符串\n" else "") ++
  (if issue_types.contains "hardcoded_secrets" then
    "- **安全性**: 建议将硬编码的密钥移到环境变量或配置文件中\n" else "")

/-- The closing summary (lines 613-624): restates the untruncated per-severity
counts. -/
def summarySection (issues : List Finding) : String :=
  "\n## 📊 总结\n\n" ++
  (if 0 < (error_issues issues).length then
    "发现 " ++ toString (error_issues issues).length ++ " 个严重问题需要立即修复。\n" else "") ++
  (if 0 < (warning_issues issues).length then
    "发现 " ++ toString (warning_issues issues).length ++ " 个警告问题建议修复。\n" else "") ++
  (if 0 < (info_issues issues).length then
    "发现 " ++ toString (info_issues issues).length ++ " 个信息提示可以改进。\n" else "") ++
  "\n建议按优先级逐步修复这些问题，以提高代码质量和可维护性。\n"

/-- The degenerate document produced by the `except` branch of
`generate_ai_report` (line 629). -/
def render_failure_doc (e : String) : String :=
  "# AI分析报告\n\n## 错误\n\n生成AI报告时发生错误: " ++ e ++ "\n"

/-- The `try` body of `generate_ai_report` (lines 555-626), as fallible code:
an `Except.error` value stands for a raised exception.  Every operation of the
body is total defaulting, so the embedding always returns `Except.ok`. -/
def generate_ai_report_body (dr : DetectionResults) (file_path : String) :
    Except String String :=
  if dr.total_issues.getD 0 == 0 then Except.ok zero_issue_doc
  else Except.ok
    (reportHeader dr file_path ++ criticalSection dr.issues ++
      warningSection dr.issues ++ qualitySection dr.issues ++
      summarySection dr.issues)

/-- The `try`/`except` wrapper of `generate_ai_report`: a raised rendering
exception is downgraded to the embedded-error document. -/
def generate_ai_report_total (body : Except String String) : String :=
  match body with
  | Except.ok r => r
  | Except.error e => render_failure_doc e

/-- Embedding of `generate_ai_report` (lines 553-629). -/
def generate_ai_report (dr : DetectionResults) (file_path : String) : String :=
  generate_ai_report_total (generate_ai_report_body dr file_path)

/-- Outcome of one completion-wait loop. -/
inductive WaitOutcome where
  | completed
  | timeout
  | diverged
deriving Repr, DecidableEq

/-- Embedding of `task_status and task_status.get("status") == "completed"`
(lines 464 and 500). -/
def tsCompleted : Option TaskStatus → Bool
  | some ts => ts.status == "completed"
  | none => false

/-- The wait loop shared by `generate_report_task` (lines 462-467) and
`store_structured_data` (lines 498-503).  `waited` is the elapsed time in
seconds (the `waited_time` variable); the provider is polled at the current
elapsed time, then the loop sleeps `interval` seconds.  The accumulated list
records the elapsed time of every poll.  The fuel argument only bounds the
recursion; `WaitOutcome.diverged` marks fuel exhaustion and is never reached
with fuel `maxWait + 1` and a positive interval. -/
def waitGo (provider : Nat → Option TaskStatus) (maxWait interval : Nat) :
    Nat → Nat → List Nat → List Nat × Option TaskStatus × WaitOutcome
  | 0, waited, polls =>
    if waited < maxWait then (polls, none, WaitOutcome.diverged)
    else (polls, none, WaitOutcome.timeout)
  | Nat.succ fuel, waited, polls =>
    if waited < maxWait then
      let ts := provider waited
      if tsCompleted ts then (polls ++ [waited], ts, WaitOutcome.completed)
      else waitGo provider maxWait interval fuel (waited + interval) (polls ++ [waited])
    else (polls, none, WaitOutcome.timeout)

/-- The Completion Waiter: the wait loop started with `waited_time = 0`.  The
source hardcodes `max_wait_time = 300` and `wait_interval = 2`; the spec's
contract parameterizes them as `T_max` and `Δ`. -/
def completionWaiter (provider : Nat → Option TaskStatus)
    (maxWait interval : Nat) : List Nat × Option TaskStatus × WaitOutcome :=
  waitGo provider maxWait interval (maxWait + 1) 0 []

/-- The `max_wait_time` constant hardcoded at lines 458 and 494. -/
def max_wait_time : Nat := 300

/-- The `wait_interval` constant hardcoded at lines 459 and 495. -/
def wait_interval : Nat := 2

/-- The `summary` sub-document of the structured payload. -/
structure StructuredSummary where
  total_issues : Nat
  error_count : Nat
  warning_count : Nat
  info_count : Nat
  languages_detected : List String
  total_files : Nat
deriving Repr, DecidableEq

/-- The `detection_metadata` sub-document of the structured payload. -/
structure DetectionMetadata where
  detection_tools : List String
  analysis_time : Nat
  project_path : String
deriving Repr, DecidableEq

/-- The structured payload (`structured_data` dict, lines 520-541). -/
structure StructuredData where
  task_id : String
  file_path : String
  analysis_type : String
  timestamp : String
  summary : StructuredSummary
  issues_by_priority : PriorityCategories
  fix_recommendations : FixRecommendations
  project_structure : StructureInfo
  detection_metadata : DetectionMetadata
deriving Repr, DecidableEq

/-- The payload construction of `store_structured_data` (lines 520-541).  The
source fills `timestamp` from `datetime.now().isoformat()`; the wall-clock
read is the explicit `timestamp` argument here. -/
def build_structured_data (detection_results : DetectionResults)
    (task_id file_path analysis_type timestamp : String) : StructuredData :=
  { task_id := task_id,
    file_path := file_path,
    analysis_type := analysis_type,
    timestamp := timestamp,
    summary :=
      { total_issues := detection_results.total_issues.getD 0,
        error_count :=
          ((detection_results.summary.getD ⟨none, none, none⟩).error_count).getD 0,
        warning_count :=
          ((detection_results.summary.getD ⟨none, none, none⟩).warning_count).getD 0,
        info_count :=
          ((detection_results.summary.getD ⟨none, none, none⟩).info_count).getD 0,
        languages_detected := detection_results.languages_detected.getD [],
        total_files := detection_results.total_files.getD 1 },
    issues_by_priority := categorize_issues_by_priority detection_results.issues,
    fix_recommendations := generate_fix_recommendations detection_results.issues,
    project_structure := analyze_project_structure detection_results analysis_type,
    detection_metadata :=
      { detection_tools := detection_results.detection_tools.getD [],
        analysis_time := detection_results.analysis_time.getD 0,
        project_path := detection_results.project_path.getD file_path } }

/-- Embedding of `store_structured_data` (lines 488-551): wait for completion, then build
and persist the payload.  Returns the persisted document, `none` when the wait
timed out or the completed status carried no detection results. -/
def store_structured_data (provider : Nat → Option TaskStatus)
    (maxWait interval : Nat)
    (task_id file_path analysis_type timestamp : String) : Option StructuredData :=
  match completionWaiter provider maxWait interval with
  | (_, some ts, WaitOutcome.completed) =>
    match ts.result with
    | some r =>
      match r.detection_results with
      | some dr =>
        some (build_structured_data dr task_id file_path analysis_type timestamp)
      | none => none
    | none => none
  | _ => none

/-- A Detection Result Aggregate with every optional field absent. -/
def emptyAggregate : DetectionResults :=
  { total_issues := none, issues := [], summary := none,
    languages_detected := none, total_files := none, detection_tools := none,
    analysis_time := none, project_path := none }

/-! ### Helper lemmas -/

lemma isPrefixOf_append_self (b c : List Char) : b.isPrefixOf (b ++ c) = true := by
  induction b with
  | nil => simp [List.isPrefixOf]
  | cons x xs ih => simp [List.isPrefixOf, ih]

lemma containsSub_nil_needle (hay : List Char) : containsSub [] hay = true := by
  cases hay <;> simp [containsSub, List.isPrefixOf]

lemma containsSub_append_middle (a b c : List Char) :
    containsSub b (a ++ (b ++ c)) = true := by
  induction a with
  | nil =>
    cases b with
    | nil => simp [containsSub_nil_needle]
    | cons x xs => simp [containsSub, isPrefixOf_append_self]
  | cons x xs ih => simp [containsSub, ih]

lemma strContains_of_data (s pre mid post : String)
    (h : s.data = pre.data ++ (mid.data ++ post.data)) :
    strContains s mid = true := by
  unfold strContains
  rw [h]
  exact containsSub_append_middle _ _ _

lemma foldl_classifyStep (issues : List Finding) (acc : PriorityCategories) :
    issues.foldl classifyStep acc =
      ⟨acc.critical ++ issues.filter isCriticalIssue,
       acc.high ++ issues.filter isHighIssue,
       acc.medium ++ issues.filter isMediumIssue,
       acc.low ++ issues.filter isLowIssue⟩ := by
  induction issues generalizing acc with
  | nil => simp
  | cons f t ih =>
    rw [List.foldl_cons, ih]
    by_cases h1 : isCriticalIssue f = true <;>
      by_cases h2 : (sevOf f == "error") = true <;>
        by_cases h3 : (sevOf f == "warning") = true <;>
          simp [classifyStep, isHighIssue, isMediumIssue, isLowIssue,
            h1, h2, h3, List.filter_cons]

lemma categorize_eq_filters (issues : List Finding) :
    categorize_issues_by_priority issues =
      ⟨issues.filter isCriticalIssue, issues.filter isHighIssue,
       issues.filter isMediumIssue, issues.filter isLowIssue⟩ := by
  unfold categorize_issues_by_priority
  rw [foldl_classifyStep]
  simp

lemma count_filter_eq (p : Finding → Bool) (a : Finding) (l : List Finding) :
    List.count a (l.filter p) = if p a = true then List.count a l else 0 := by
  induction l with
  | nil => simp
  | cons x t ih =>
    rcases eq_or_ne x a with rfl | hx
    · by_cases hp : p x = true <;>
        simp [List.filter_cons, hp, List.count_cons, ih]
    · by_cases hp : p x = true <;>
        simp [List.filter_cons, hp, List.count_cons, ih, hx]

lemma tier_counts (a : Finding) (issues : List Finding) :
    List.count a (issues.filter isCriticalIssue) +
      List.count a (issues.filter isHighIssue) +
      List.count a (issues.filter isMediumIssue) +
      List.count a (issues.filter isLowIssue) = List.count a issues := by
  rw [count_filter_eq, count_filter_eq, count_filter_eq, count_filter_eq]
  by_cases h1 : isCriticalIssue a = true <;>
    by_cases h2 : (sevOf a == "error") = true <;>
      by_cases h3 : (sevOf a == "warning") = true <;>
        simp [isHighIssue, isMediumIssue, isLowIssue, h1, h2, h3]

lemma tiers_perm (issues : List Finding) :
    List.Perm
      (issues.filter isCriticalIssue ++ issues.filter isHighIssue ++
        issues.filter isMediumIssue ++ issues.filter isLowIssue) issues := by
  rw [List.perm_iff_count]
  intro a
  simp only [List.count_append]
  have := tier_counts a issues
  omega

lemma categorize_singleton (f : Finding) :
    categorize_issues_by_priority [f] =
      if isCriticalIssue f then ⟨[f], [], [], []⟩
      else if sevOf f == "error" then ⟨[], [f], [], []⟩
      else if sevOf f == "warning" then ⟨[], [], [f], []⟩
      else ⟨[], [], [], [f]⟩ := by
  by_cases h1 : isCriticalIssue f = true <;>
    by_cases h2 : (sevOf f == "error") = true <;>
      by_cases h3 : (sevOf f == "warning") = true <;>
        simp [categorize_issues_by_priority, classifyStep, h1, h2, h3]

/-! ### Claims -/

/-- Claim C1: for every ordered sequence of Findings the Priority Classifier
returns the four tiers critical/high/medium/low; the concatenation of the
tiers in precedence order is a permutation of the input (nothing lost, nothing
duplicated), every Finding's occurrences distribute exactly over the four
tiers (placed in exactly one tier, counted with multiplicity), and each tier
is a sublist of the input, so order within each tier equals original order. -/
theorem categorize_partitions (issues : List Finding) :
    List.Perm
      ((categorize_issues_by_priority issues).critical ++
        (categorize_issues_by_priority issues).high ++
        (categorize_issues_by_priority issues).medium ++
        (categorize_issues_by_priority issues).low) issues ∧
    (∀ f : Finding,
      List.count f (categorize_issues_by_priority issues).critical +
        List.count f (categorize_issues_by_priority issues).high +
        List.count f (categorize_issues_by_priority issues).medium +
        List.count f (categorize_issues_by_priority issues).low =
        List.count f issues) ∧
    (categorize_issues_by_priority issues).critical.Sublist issues ∧
    (categorize_issues_by_priority issues).high.Sublist issues ∧
    (categorize_issues_by_priority issues).medium.Sublist issues ∧
    (categorize_issues_by_priority issues).low.Sublist issues := by
  rw [categorize_eq_filters]
  exact ⟨tiers_perm issues, fun f => tier_counts f issues,
    List.filter_sublist _, List.filter_sublist _,
    List.filter_sublist _, List.filter_sublist _⟩

/-- Claim C2: the Priority Classifier assigns the first matching tier in
order — critical when severity is "error" and the lowercased type contains a
security keyword, high when severity is "error" otherwise, medium when
severity is "warning", low otherwise; in particular severity "error" with
type "sql_injection" lands in critical, and severity "warning" with that type
lands in medium (whatever the file, line and message fields are). -/
theorem categorize_first_match_rule :
    (∀ f : Finding,
      categorize_issues_by_priority [f] =
        if isCriticalIssue f then ⟨[f], [], [], []⟩
        else if sevOf f == "error" then ⟨[], [f], [], []⟩
        else if sevOf f == "warning" then ⟨[], [], [f], []⟩
        else ⟨[], [], [], [f]⟩) ∧
    (∀ (file : Option String) (line : Option Nat) (msg : Option String),
      (categorize_issues_by_priority
          [⟨some "error", some "sql_injection", file, line, msg⟩]).critical =
        [⟨some "error", some "sql_injection", file, line, msg⟩]) ∧
    (∀ (file : Option String) (line : Option Nat) (msg : Option String),
      (categorize_issues_by_priority
          [⟨some "warning", some "sql_injection", file, line, msg⟩]).medium =
        [⟨some "warning", some "sql_injection", file, line, msg⟩]) := by
  refine ⟨categorize_singleton, ?_, ?_⟩ <;>
    · intro file line msg
      rw [categorize_singleton]
      rfl

/-- Claim C3 counterexample: the Structured Payload Builder is not a pure
function of the Detection Result Aggregate plus the identifiers alone — the
`timestamp` field is read from the wall clock at invocation time
(`datetime.now().isoformat()`, line 524), so two invocations on the identical
aggregate at different instants produce different documents. -/
theorem build_structured_data_not_clock_free :
    build_structured_data emptyAggregate "task_1" "a.py" "file"
        "2024-01-01T00:00:00" ≠
      build_structured_data emptyAggregate "task_1" "a.py" "file"
        "2024-01-01T00:00:01" := by
  intro h
  have h2 := congrArg StructuredData.timestamp h
  exact absurd h2 (by decide)

/-- Claim C3 (amended): the Structured Payload Builder is a deterministic
function of the Detection Result Aggregate, task id, file path, analysis type
and the invocation timestamp; every field except `timestamp` depends only on
the aggregate and the identifiers, so two invocations with identical aggregate
agree on all fields but `timestamp`. -/
theorem build_structured_data_pure_given_clock (dr : DetectionResults)
    (tid fp ty ts1 ts2 : String) :
    { build_structured_data dr tid fp ty ts1 with timestamp := ts2 } =
      build_structured_data dr tid fp ty ts2 := rfl

/-- A status provider that never reports completion. -/
def neverCompleting : Nat → Option TaskStatus := fun _ => some ⟨"running", none⟩

/-- Claim C4 counterexample: with `T_max = 4` and `Δ = 2` and a provider that
never completes, the Completion Waiter does poll exactly twice and time out,
but the polls happen at elapsed times t=0 and t=2 — the loop polls before its
first sleep — not at t=2 and t=4 as the claim states ("and not before" fails
at the t=0 poll). -/
theorem waiter_polls_at_zero_and_two :
    completionWaiter neverCompleting 4 2 = ([0, 2], none, WaitOutcome.timeout) ∧
      ([0, 2] : List Nat) ≠ [2, 4] := by decide

/-- Claim C4 (amended): with `T_max = 4`, `Δ = 2` and a status provider that
never reports "completed", the Completion Waiter signals Timeout after exactly
2 status polls, those polls occurring at elapsed times t=0 (immediately, before
the first wait) and t=2, with the timeout signalled at t=4; no result is
produced. -/
theorem waiter_timeout_poll_times (p : Nat → Option TaskStatus)
    (h : ∀ t, tsCompleted (p t) = false) :
    completionWaiter p 4 2 = ([0, 2], none, WaitOutcome.timeout) := by
  simp [completionWaiter, waitGo, h]

/-- Witness for the amended C4 theorem at a concrete provider. -/
theorem waiter_timeout_poll_times_witness :
    completionWaiter neverCompleting 4 2 = ([0, 2], none, WaitOutcome.timeout) :=
  waiter_timeout_poll_times neverCompleting (fun _ => rfl)

lemma waitGo_congr (p1 p2 : Nat → Option TaskStatus) (maxWait interval : Nat)
    (hsame : ∀ t, tsCompleted (p1 t) = tsCompleted (p2 t)) (fuel : Nat) :
    ∀ waited polls,
      (waitGo p1 maxWait interval fuel waited polls).1 =
        (waitGo p2 maxWait interval fuel waited polls).1 ∧
      (waitGo p1 maxWait interval fuel waited polls).2.2 =
        (waitGo p2 maxWait interval fuel waited polls).2.2 := by
  induction fuel with
  | zero =>
    intro waited polls
    by_cases hw : waited < maxWait <;> simp [waitGo, hw]
  | succ fuel ih =>
    intro waited polls
    by_cases hw : waited < maxWait
    · have h2 : tsCompleted (p2 waited) = tsCompleted (p1 waited) :=
        (hsame waited).symm
      by_cases hc : tsCompleted (p1 waited) = true
      · simp [waitGo, hw, h2, hc]
      · have hc' : tsCompleted (p1 waited) = false := by
          cases hcc : tsCompleted (p1 waited)
          · rfl
          · exact absurd hcc hc
        simp only [waitGo, hw, if_true, h2, hc', Bool.false_eq_true, if_false]
        exact ih (waited + interval) (polls ++ [waited])
    · simp [waitGo, hw]

lemma waitGo_timeout (p : Nat → Option TaskStatus) (maxWait interval : Nat)
    (hnever : ∀ t, tsCompleted (p t) = false) (fuel : Nat) :
    ∀ waited polls, maxWait ≤ waited + fuel * interval →
      (waitGo p maxWait interval fuel waited polls).2.2 = WaitOutcome.timeout := by
  induction fuel with
  | zero =>
    intro waited polls hb
    have hw : ¬ waited < maxWait := by omega
    simp [waitGo, hw]
  | succ fuel ih =>
    intro waited polls hb
    by_cases hw : waited < maxWait
    · simp only [waitGo, hw, if_true, hnever waited, Bool.false_eq_true, if_false]
      refine ih (waited + interval) (polls ++ [waited]) ?_
      rw [Nat.succ_mul] at hb
      omega
    · simp [waitGo, hw]

lemma waitGo_completed_polled (p : Nat → Option TaskStatus)
    (maxWait interval : Nat) (fuel : Nat) :
    ∀ waited polls,
      (waitGo p maxWait interval fuel waited polls).2.2 = WaitOutcome.completed →
      ∃ t, tsCompleted (p t) = true := by
  induction fuel with
  | zero =>
    intro waited polls h
    by_cases hw : waited < maxWait <;> simp [waitGo, hw] at h
  | succ fuel ih =>
    intro waited polls h
    by_cases hw : waited < maxWait
    · by_cases hc : tsCompleted (p waited) = true
      · exact ⟨waited, hc⟩
      · have hc' : tsCompleted (p waited) = false := by
          cases hcc : tsCompleted (p waited)
          · rfl
          · exact absurd hcc hc
        simp only [waitGo, hw, if_true, hc', Bool.false_eq_true, if_false] at h
        exact ih (waited + interval) (polls ++ [waited]) h
    · simp [waitGo, hw] at h

/-- Claim C5: the poll loop exits with a result only when the provider reports
"completed" — providers that agree on where they report "completed" produce the
same poll trace and the same outcome (so "failed" records and missing records
are both treated identically to not-yet-complete and never surfaced as an
error), a provider that never reports "completed" always times out, and a
completed outcome implies "completed" was actually polled. -/
theorem waiter_ignores_failed_and_missing :
    (∀ (p1 p2 : Nat → Option TaskStatus) (maxWait interval : Nat),
      (∀ t, tsCompleted (p1 t) = tsCompleted (p2 t)) →
      (completionWaiter p1 maxWait interval).1 =
          (completionWaiter p2 maxWait interval).1 ∧
        (completionWaiter p1 maxWait interval).2.2 =
          (completionWaiter p2 maxWait interval).2.2) ∧
    (∀ (p : Nat → Option TaskStatus) (maxWait interval : Nat), 0 < interval →
      (∀ t, tsCompleted (p t) = false) →
      (completionWaiter p maxWait interval).2.2 = WaitOutcome.timeout) ∧
    (∀ (p : Nat → Option TaskStatus) (maxWait interval : Nat),
      (completionWaiter p maxWait interval).2.2 = WaitOutcome.completed →
      ∃ t, tsCompleted (p t) = true) := by
  refine ⟨?_, ?_, ?_⟩
  · intro p1 p2 m i hsame
    exact waitGo_congr p1 p2 m i hsame (m + 1) 0 []
  · intro p m i hi hnever
    refine waitGo_timeout p m i hnever (m + 1) 0 [] ?_
    calc m ≤ (m + 1) * 1 := by omega
      _ ≤ (m + 1) * i := Nat.mul_le_mul_left _ hi
      _ = 0 + (m + 1) * i := by omega
  · intro p m i h
    exact waitGo_completed_polled p m i (m + 1) 0 [] h

/-- A status provider that always answers "failed". -/
def alwaysFailed : Nat → Option TaskStatus := fun _ => some ⟨"failed", none⟩

/-- A status provider with no record for the task. -/
def alwaysMissing : Nat → Option TaskStatus := fun _ => none

/-- Witness for C5: an always-"failed" provider and a missing-record provider
behave identically and both time out. -/
theorem waiter_ignores_failed_and_missing_witness :
    (completionWaiter alwaysFailed 4 2).1 = (completionWaiter alwaysMissing 4 2).1 ∧
    (completionWaiter alwaysFailed 4 2).2.2 =
      (completionWaiter alwaysMissing 4 2).2.2 ∧
    (completionWaiter alwaysFailed 4 2).2.2 = WaitOutcome.timeout := by
  have h1 := waiter_ignores_failed_and_missing.1 alwaysFailed alwaysMissing 4 2
    (fun t => rfl)
  have h2 := waiter_ignores_failed_and_missing.2.1 alwaysFailed 4 2 (by decide)
    (fun t => rfl)
  exact ⟨h1.1, h1.2, h2⟩

/-- Claim C6: whenever the wait loop observes "completed" and the completed
status carries detection results, `store_structured_data` composes and
persists exactly one payload document for the task — the build of the payload
from that aggregate — and the build is total on aggregates with missing
optional fields, substituting the documented defaults (counts 0, empty lists,
`total_files` 1, `analysis_time` 0, `project_path` falling back to the input
file path). -/
theorem store_builds_one_payload (provider : Nat → Option TaskStatus)
    (maxWait interval : Nat) (polls : List Nat) (t : TaskStatus)
    (r : TaskResult) (dr : DetectionResults) (tid fp ty ts : String)
    (hw : completionWaiter provider maxWait interval =
      (polls, some t, WaitOutcome.completed))
    (hr : t.result = some r) (hd : r.detection_results = some dr) :
    store_structured_data provider maxWait interval tid fp ty ts =
      some (build_structured_data dr tid fp ty ts) ∧
    (∀ issues : List Finding,
      (build_structured_data { emptyAggregate with issues := issues }
          tid fp ty ts).summary = ⟨0, 0, 0, 0, [], 1⟩ ∧
      (build_structured_data { emptyAggregate with issues := issues }
          tid fp ty ts).detection_metadata = ⟨[], 0, fp⟩) := by
  constructor
  · unfold store_structured_data
    rw [hw]
    simp [hr, hd]
  · intro issues
    exact ⟨rfl, rfl⟩

/-- A provider whose task is already completed, carrying the given results. -/
def completedProvider (dr : DetectionResults) : Nat → Option TaskStatus :=
  fun _ => some ⟨"completed", some ⟨some dr, some "a.py"⟩⟩

/-- Witness for C6 at a concrete always-completed provider. -/
theorem store_builds_one_payload_witness :
    store_structured_data (completedProvider emptyAggregate) 300 2
        "task_1" "a.py" "file" "ts" =
      some (build_structured_data emptyAggregate "task_1" "a.py" "file" "ts") :=
  (store_builds_one_payload (completedProvider emptyAggregate) 300 2 [0]
    ⟨"completed", some ⟨some emptyAggregate, some "a.py"⟩⟩
    ⟨some emptyAggregate, some "a.py"⟩ emptyAggregate
    "task_1" "a.py" "file" "ts" rfl rfl rfl).1

lemma summary_contains_error_line (issues : List Finding)
    (h0 : 0 < (error_issues issues).length) :
    strContains (summarySection issues)
      ("发现 " ++ toString (error_issues issues).length ++
        " 个严重问题需要立即修复。\n") = true := by
  apply strContains_of_data _ "\n## 📊 总结\n\n" _
    ((if 0 < (warning_issues issues).length then
        "发现 " ++ toString (warning_issues issues).length ++
          " 个警告问题建议修复。\n" else "") ++
      ((if 0 < (info_issues issues).length then
        "发现 " ++ toString (info_issues issues).length ++
          " 个信息提示可以改进。\n" else "") ++
        "\n建议按优先级逐步修复这些问题，以提高代码质量和可维护性。\n"))
  simp [summarySection, h0, String.data_append, List.append_assoc]

/-- Claim C7: with 7 or more error-severity Findings (and a `total_issues`
count matching the issue list, per the data-model invariant), the Narrative
Report Generator lists exactly the first 5 error Findings in the critical
section, while the closing summary restates the full, untruncated error
count. -/
theorem report_truncates_critical_keeps_counts (dr : DetectionResults)
    (fp : String) (hinv : dr.total_issues.getD 0 = dr.issues.length)
    (h7 : 7 ≤ (error_issues dr.issues).length) :
    ((error_issues dr.issues).take 5).length = 5 ∧
    error_issues dr.issues =
      (error_issues dr.issues).take 5 ++ (error_issues dr.issues).drop 5 ∧
    generate_ai_report dr fp =
      reportHeader dr fp ++
        ("## 🚨 严重问题\n\n" ++
          String.join (((error_issues dr.issues).take 5).map
            (issueEntry "需要立即修复此问题"))) ++
        warningSection dr.issues ++ qualitySection dr.issues ++
        summarySection dr.issues ∧
    strContains (summarySection dr.issues)
      ("发现 " ++ toString (error_issues dr.issues).length ++
        " 个严重问题需要立即修复。\n") = true := by
  have hle : (error_issues dr.issues).length ≤ dr.issues.length :=
    List.length_filter_le _ _
  have hne0 : dr.total_issues.getD 0 ≠ 0 := by omega
  have hene : (error_issues dr.issues).isEmpty = false := by
    cases he : error_issues dr.issues with
    | nil => rw [he] at h7; simp at h7
    | cons a t => rfl
  refine ⟨?_, (List.take_append_drop 5 (error_issues dr.issues)).symm, ?_, ?_⟩
  · rw [List.length_take]
    omega
  · simp [generate_ai_report, generate_ai_report_body, generate_ai_report_total,
      hne0, criticalSection, hene]
  · exact summary_contains_error_line dr.issues (by omega)

/-- An error-severity Finding used in concrete report examples. -/
def errFinding (n : Nat) : Finding :=
  ⟨some "error", some "unhandled_exception", some "a.py", some n, some "m"⟩

/-- An aggregate with exactly 7 error-severity Findings. -/
def sevenErrors : DetectionResults :=
  { emptyAggregate with
      total_issues := some 7, issues := (List.range 7).map errFinding }

/-- Witness for C7 at an aggregate with exactly 7 error Findings. -/
theorem report_truncates_critical_keeps_counts_witness :
    ((error_issues sevenErrors.issues).take 5).length = 5 ∧
    strContains (summarySection sevenErrors.issues)
      ("发现 " ++ toString (error_issues sevenErrors.issues).length ++
        " 个严重问题需要立即修复。\n") = true := by
  have h := report_truncates_critical_keeps_counts sevenErrors "a.py"
    (by decide) (by decide)
  exact ⟨h.1, h.2.2.2⟩

/-- Claim C8: the Narrative Report Generator always returns a document.  The
rendering body is fallible in the source (`try`); the embedding shows it never
actually raises (always `Except.ok`), and the `except` wrapper converts any
raised rendering error into the degenerate document that embeds the error
description as a substring — no exception ever propagates. -/
theorem report_never_propagates :
    (∀ (dr : DetectionResults) (fp : String),
      ∃ r, generate_ai_report_body dr fp = Except.ok r ∧
        generate_ai_report dr fp = r) ∧
    (∀ e : String,
      generate_ai_report_total (Except.error e) = render_failure_doc e ∧
      strContains (render_failure_doc e) e = true) := by
  constructor
  · intro dr fp
    unfold generate_ai_report generate_ai_report_body generate_ai_report_total
    by_cases h : (dr.total_issues.getD 0 == 0) = true <;> simp [h]
  · intro e
    refine ⟨rfl, ?_⟩
    apply strContains_of_data _ "# AI分析报告\n\n## 错误\n\n生成AI报告时发生错误: " _ "\n"
    simp [render_failure_doc, String.data_append, List.append_assoc]

/-- A warning Finding in file `a.py` used by the C9 example. -/
def aIssue (n : Nat) : Finding :=
  ⟨some "warning", some "unused_import", some "a.py", some n, some "m"⟩

/-- The C9 example aggregate: 6 Findings in `a.py` plus 1 in `b.py`. -/
def sixPlusOne : DetectionResults :=
  { emptyAggregate with
      total_issues := some 7,
      issues := (List.range 6).map aIssue ++
        [⟨some "warning", some "unused_import", some "b.py", some 1, some "m"⟩] }

/-- Claim C9: the Structure Analyzer returns both complexity indicators 0 on
an empty Finding list; on a non-empty list it groups Findings by file,
reporting the number of distinct files with more than 5 Findings and the
total-Finding count divided by the distinct-file count; for 6 Findings in
`a.py` plus 1 in `b.py` this gives `high_issue_files = 1` and
`average_issues_per_file = 7/2`. -/
theorem structure_analyzer_indicators :
    (∀ (dr : DetectionResults) (ty : String), dr.issues = [] →
      (analyze_project_structure dr ty).complexity_indicators = ⟨0, 0⟩) ∧
    (∀ (dr : DetectionResults) (ty : String), dr.issues ≠ [] →
      (analyze_project_structure dr ty).complexity_indicators.high_issue_files =
        (fileNames dr.issues).countP (fun n => 5 < fileIssueCount dr.issues n) ∧
      (analyze_project_structure dr ty).complexity_indicators.average_issues_per_file =
        (dr.issues.length : ℚ) / ((fileNames dr.issues).length : ℚ)) ∧
    (analyze_project_structure sixPlusOne "project").complexity_indicators =
      ⟨1, 7 / 2⟩ := by
  refine ⟨?_, ?_, ?_⟩
  · intro dr ty h
    simp [analyze_project_structure, h]
  · intro dr ty h
    have hie : dr.issues.isEmpty = false := by
      cases hd : dr.issues with
      | nil => exact absurd hd h
      | cons a t => rfl
    have hlen : ¬ (fileNames dr.issues).length = 0 := by
      intro h0
      rw [List.length_eq_zero, fileNames, List.dedup_eq_nil,
        List.map_eq_nil_iff] at h0
      exact h h0
    constructor <;> simp [analyze_project_structure, hie, hlen]
  · have e1 : sixPlusOne.issues.length = 7 := by decide
    have e2 : (fileNames sixPlusOne.issues).length = 2 := by decide
    have e3 : (fileNames sixPlusOne.issues).countP
        (fun n => 5 < fileIssueCount sixPlusOne.issues n) = 1 := by decide
    have hie : sixPlusOne.issues.isEmpty = false := by decide
    simp [analyze_project_structure, hie, e1, e2, e3]

/-- Witness for C9, instantiating both the empty and the non-empty branch at
concrete aggregates. -/
theorem structure_analyzer_indicators_witness :
    (analyze_project_structure emptyAggregate "file").complexity_indicators =
        ⟨0, 0⟩ ∧
    (analyze_project_structure sixPlusOne "project").complexity_indicators.high_issue_files =
      (fileNames sixPlusOne.issues).countP
        (fun n => 5 < fileIssueCount sixPlusOne.issues n) := by
  refine ⟨structure_analyzer_indicators.1 emptyAggregate "file" rfl, ?_⟩
  exact (structure_analyzer_indicators.2.1 sixPlusOne "project" (by decide)).1

/-- A Finding whose severity is none of error/warning/info. -/
def bogusFinding : Finding := ⟨some "fatal", some "style", some "a.py", some 1, some "m"⟩

/-- Claim C10 counterexample: the report generator's per-severity groupings
(lines 563-565) compare `issue.get("severity")` against the three literals
with no default, so a Finding with an unrecognized severity is counted in none
of the three buckets — it is not treated as info, and the three header counts
do not sum to the total for the non-empty list `[bogusFinding]`. -/
theorem severity_counts_miss_unrecognized :
    (info_issues [bogusFinding]).length = 0 ∧
    (error_issues [bogusFinding]).length + (warning_issues [bogusFinding]).length +
        (info_issues [bogusFinding]).length ≠
      ([bogusFinding] : List Finding).length := by
  decide

/-- Claim C10 (amended): the per-severity header counts of the Narrative
Report Generator cover a Finding only when its severity is exactly "error",
"warning" or "info"; their sum equals the number of Findings with one of those
recognized severities (so it equals the total only when every severity is
recognized), and a Finding with an unrecognized or missing severity is counted
in none of the three buckets. -/
theorem severity_counts_sum_recognized (issues : List Finding) :
    (error_issues issues).length + (warning_issues issues).length +
        (info_issues issues).length =
      issues.countP (fun i =>
        i.severity == some "error" || i.severity == some "warning" ||
          i.severity == some "info") := by
  induction issues with
  | nil => simp [error_issues, warning_issues, info_issues]
  | cons x t ih =>
    by_cases h1 : x.severity = some "error" <;>
      by_cases h2 : x.severity = some "warning" <;>
        by_cases h3 : x.severity = some "info" <;>
          simp [error_issues, warning_issues, info_issues, List.filter_cons,
            List.countP_cons, h1, h2, h3] at * <;> omega
